import Mathlib

/-!
Verification of the OTP lifecycle manager of the milkanoagro vendor backend,
shallowly embedded from src/services/otpService.js.

Modelling conventions:
- Time is a natural number of seconds (the source works in milliseconds and
  truncates to whole seconds when persisting; every constant in the source is
  a whole number of seconds, so the second is the natural unit).
- The otps table is a list of OtpRec rows; fresh primary keys come from
  freshId, mirroring AUTO_INCREMENT.
- Math.random() * 900000 floored is the draw field of Env; the source
  guarantees draw < 900000.
- SMS delivery is external: Env.deliveryFails says whether the Twilio call
  throws (or, in quiet mode, nothing is sent and deliveryFails is false).
- Errors are the taxonomy of section 7 of the design document; each JS throw
  site is mapped to its named error kind.
-/

namespace OtpService

/-- Error taxonomy of the OTP manager. -/
inductive OtpError where
  | RateLimitExceeded
  | DeliveryFailed
  | NoActiveCode
  | Expired
  | AttemptsExhausted
  | CodeMismatch
  | TooSoon
deriving DecidableEq, Repr

/-- One row of the otps table: id, phone, otp_code, purpose, created_at,
expires_at, attempts, is_used. -/
structure OtpRec where
  id : Nat
  phone : String
  code : String
  purpose : String
  createdAt : Nat
  expiresAt : Nat
  attempts : Nat
  isUsed : Bool
deriving DecidableEq, Repr

/-- The otps table. -/
abbrev Store := List OtpRec

/-- Per-call environment: the clock reading in seconds, the random draw
(floor of Math.random() * 900000, so draw < 900000), and whether the SMS
gateway call fails. -/
structure Env where
  now : Nat
  draw : Nat
  deliveryFails : Bool
deriving DecidableEq, Repr

/-- Result value of sendOTP and resendOTP (phone and expiresAt fields of the
returned object; the success flag and message carry no information). -/
structure SendResult where
  phone : String
  expiresAt : Nat
deriving DecidableEq, Repr

/-- phone.replace of every non-digit with nothing. -/
def cleanDigits (p : String) : String :=
  String.mk (p.data.filter Char.isDigit)

/-- Math.floor(100000 + Math.random() * 900000).toString() with the scaled
draw made explicit. -/
def generateOTP (draw : Nat) : String :=
  toString (100000 + draw)

/-- The attempts ceiling hardcoded in verifyOTP (max 3 attempts). -/
def maxAttempts : Nat := 3

/-- Next AUTO_INCREMENT primary key: one past the largest id in the table. -/
def freshId (s : Store) : Nat :=
  s.foldr (fun r m => max (r.id + 1) m) 0

/-- Row predicate of the verifyOTP selection query:
phone matches, purpose matches, is_used = FALSE. -/
def matchesActive (cp purpose : String) (r : OtpRec) : Bool :=
  decide (r.phone = cp ∧ r.purpose = purpose ∧ r.isUsed = false)

/-- Accumulator step selecting a row with the largest created_at; on a tie the
later row wins, matching ORDER BY created_at DESC over an append-ordered table
(later insert, larger id, listed first among equal timestamps). -/
def pickStep (acc : Option OtpRec) (r : OtpRec) : Option OtpRec :=
  match acc with
  | none => some r
  | some b => if r.createdAt ≥ b.createdAt then some r else some b

/-- Row with the largest created_at among a list of candidates. -/
def pickLatest (l : List OtpRec) : Option OtpRec :=
  l.foldl pickStep none

/-- SELECT ... WHERE phone = ? AND purpose = ? AND is_used = FALSE
ORDER BY created_at DESC LIMIT 1. -/
def findActive (s : Store) (cp purpose : String) : Option OtpRec :=
  pickLatest (s.filter (matchesActive cp purpose))

/-- UPDATE otps SET is_used = TRUE WHERE id = ?. -/
def markUsed (s : Store) (i : Nat) : Store :=
  s.map (fun r => if r.id = i then { r with isUsed := true } else r)

/-- UPDATE otps SET attempts = attempts + 1 WHERE id = ?. -/
def incAttempts (s : Store) (i : Nat) : Store :=
  s.map (fun r => if r.id = i then { r with attempts := r.attempts + 1 } else r)

/-- SELECT COUNT(*) FROM otps WHERE phone = ? AND created_at > ? with the
cutoff five minutes before now. -/
def countRecent (s : Store) (cp : String) (now : Nat) : Nat :=
  (s.filter (fun r => decide (r.phone = cp ∧ r.createdAt > now - 5 * 60))).length

/-- Nonemptiness of SELECT id FROM otps WHERE phone = ? AND created_at > ?
with the cutoff one minute before now (the LIMIT 1 of the source only bounds
the row count; the code tests recentOtp.length > 0). -/
def hasRecent (s : Store) (cp : String) (now : Nat) : Bool :=
  decide ((s.filter (fun r => decide (r.phone = cp ∧ r.createdAt > now - 60))).length > 0)

/-- UPDATE otps SET is_used = TRUE WHERE phone = ? AND is_used = FALSE.
Note: no purpose filter, exactly as in the source. -/
def invalidatePhone (s : Store) (cp : String) : Store :=
  s.map (fun r => if r.phone = cp ∧ r.isUsed = false then { r with isUsed := true } else r)

/-- The row INSERTed by sendOTP: fresh id, cleaned phone, generated code,
given purpose, created_at = now, expires_at = now + 10 minutes, attempts and
is_used from the column defaults 0 and FALSE. -/
def newRecord (env : Env) (s : Store) (phone purpose : String) : OtpRec :=
  { id := freshId s
    phone := cleanDigits phone
    code := generateOTP env.draw
    purpose := purpose
    createdAt := env.now
    expiresAt := env.now + 10 * 60
    attempts := 0
    isUsed := false }

/-- OTPService.sendOTP: rate-limit check (at most 3 rows per phone per
5 minutes), then INSERT of the new row, then SMS delivery, whose failure
throws after the INSERT. -/
def sendOTP (env : Env) (s : Store) (phone purpose : String) :
    Except OtpError SendResult × Store :=
  let cp := cleanDigits phone
  if countRecent s cp env.now ≥ 3 then
    (.error .RateLimitExceeded, s)
  else
    let s1 := s ++ [newRecord env s phone purpose]
    if env.deliveryFails then
      (.error .DeliveryFailed, s1)
    else
      (.ok { phone := cp, expiresAt := env.now + 10 * 60 }, s1)

/-- OTPService.verifyOTP: select the most recent unused row for
(phone, purpose); no row throws NoActiveCode; an expired row is marked used
and throws Expired; a row with attempts at the ceiling is marked used and
throws AttemptsExhausted; a wrong code increments attempts and throws
CodeMismatch; otherwise the row is marked used and the call succeeds. -/
def verifyOTP (now : Nat) (s : Store) (phone otpCode purpose : String) :
    Except OtpError Unit × Store :=
  let cp := cleanDigits phone
  match findActive s cp purpose with
  | none => (.error .NoActiveCode, s)
  | some r =>
    if now > r.expiresAt then
      (.error .Expired, markUsed s r.id)
    else if r.attempts ≥ maxAttempts then
      (.error .AttemptsExhausted, markUsed s r.id)
    else if r.code ≠ otpCode then
      (.error .CodeMismatch, incAttempts s r.id)
    else
      (.ok (), markUsed s r.id)

/-- OTPService.resendOTP: throw TooSoon if any row for the phone (any
purpose) was created within the last minute; otherwise mark every unused row
for the phone (any purpose) used, then delegate to sendOTP. -/
def resendOTP (env : Env) (s : Store) (phone purpose : String) :
    Except OtpError SendResult × Store :=
  let cp := cleanDigits phone
  if hasRecent s cp env.now then
    (.error .TooSoon, s)
  else
    sendOTP env (invalidatePhone s cp) phone purpose

instance exceptDecEq {ε α : Type} [DecidableEq ε] [DecidableEq α] :
    DecidableEq (Except ε α) := fun x y =>
  match x, y with
  | .ok a, .ok b => if h : a = b then .isTrue (by rw [h]) else .isFalse (by simp [h])
  | .error e, .error f => if h : e = f then .isTrue (by rw [h]) else .isFalse (by simp [h])
  | .ok _, .error _ => .isFalse (by simp)
  | .error _, .ok _ => .isFalse (by simp)

/-- One sequential call to the manager. -/
inductive Op where
  | issue (env : Env) (phone purpose : String)
  | verify (now : Nat) (phone code purpose : String)
  | resend (env : Env) (phone purpose : String)

/-- Store transformation of one call. -/
def applyOp (s : Store) : Op → Store
  | .issue env phone purpose => (sendOTP env s phone purpose).2
  | .verify now phone code purpose => (verifyOTP now s phone code purpose).2
  | .resend env phone purpose => (resendOTP env s phone purpose).2

/-- Store reached by a sequence of calls starting from the empty table. -/
def runOps (ops : List Op) : Store :=
  ops.foldl applyOp []

/-- Row b is row a after only in-place mutations the manager performs:
identity fields equal, attempts unchanged or incremented once, is_used
unchanged or set to true. -/
def recEvolved (a b : OtpRec) : Prop :=
  b.id = a.id ∧ b.phone = a.phone ∧ b.code = a.code ∧ b.purpose = a.purpose ∧
  b.createdAt = a.createdAt ∧ b.expiresAt = a.expiresAt ∧
  (b.attempts = a.attempts ∨ b.attempts = a.attempts + 1) ∧
  (b.isUsed = a.isUsed ∨ b.isUsed = true)

/-- Store change the specification text allows on a failure path: the table
left untouched, or rows individually marked used / attempts incremented. -/
def specFailureChange (s s2 : Store) : Prop :=
  s2 = s ∨ List.Forall₂ recEvolved s s2

/-- Store change the code actually performs on a failure path: rows marked
used or attempts incremented, and possibly one new row appended (the row
inserted before a failing SMS delivery). -/
def failureChange (s s2 : Store) : Prop :=
  List.Forall₂ recEvolved s s2 ∨
  ∃ t r, List.Forall₂ recEvolved s t ∧ s2 = t ++ [r]

/-- Table well-formedness the manager maintains: every attempts counter is
within the ceiling and primary keys are distinct. -/
def WF (s : Store) : Prop :=
  (∀ r ∈ s, r.attempts ≤ maxAttempts) ∧ (s.map OtpRec.id).Nodup

/-- Sample row: active login code 123456 issued at t = 1000, expiring 2000. -/
def rowA : OtpRec := ⟨1, "9876543210", "123456", "login", 1000, 2000, 0, false⟩

/-- Sample row: as rowA but with the attempts counter at the ceiling. -/
def rowB : OtpRec := ⟨1, "9876543210", "123456", "login", 1000, 2000, 3, false⟩

/-- Sample row: an older still-unused login code with a long expiry. -/
def rowOld : OtpRec := ⟨1, "9876543210", "111111", "login", 1000, 100000, 0, false⟩

/-- Sample row: an unused login code issued at t = 1000, expiring 1700. -/
def rowC : OtpRec := ⟨1, "9876543210", "111111", "login", 1000, 1700, 0, false⟩

/-- Sample rows issued ten seconds apart, for rate-limit scenarios. -/
def row1 : OtpRec := ⟨1, "9876543210", "111111", "login", 1000, 1600, 0, false⟩

/-- Second of the rate-limit sample rows. -/
def row2 : OtpRec := ⟨2, "9876543210", "222222", "login", 1010, 1610, 0, false⟩

/-- Third of the rate-limit sample rows. -/
def row3 : OtpRec := ⟨3, "9876543210", "333333", "login", 1020, 1620, 0, false⟩

theorem matchesActive_eq_true {cp purpose : String} {r : OtpRec} :
    matchesActive cp purpose r = true ↔
      r.phone = cp ∧ r.purpose = purpose ∧ r.isUsed = false := by
  simp [matchesActive]

theorem pickStep_eq_some {acc : Option OtpRec} {r c : OtpRec}
    (h : pickStep acc r = some c) : c = r ∨ acc = some c := by
  cases acc with
  | none =>
    simp only [pickStep, Option.some.injEq] at h
    exact Or.inl h.symm
  | some b =>
    simp only [pickStep] at h
    split at h
    · exact Or.inl (Option.some.inj h).symm
    · exact Or.inr h

theorem foldl_pickStep_mem :
    ∀ (l : List OtpRec) (acc : Option OtpRec) (c : OtpRec),
      l.foldl pickStep acc = some c → acc = some c ∨ c ∈ l := by
  intro l
  induction l with
  | nil => intro acc c h; exact Or.inl h
  | cons x xs ih =>
    intro acc c h
    rcases ih (pickStep acc x) c h with h1 | h1
    · rcases pickStep_eq_some h1 with h2 | h2
      · exact Or.inr (by simp [h2])
      · exact Or.inl h2
    · exact Or.inr (List.mem_cons_of_mem _ h1)

theorem pickLatest_mem {l : List OtpRec} {c : OtpRec} (h : pickLatest l = some c) :
    c ∈ l := by
  rcases foldl_pickStep_mem l none c h with h1 | h1
  · exact Option.noConfusion h1
  · exact h1

theorem findActive_mem {s : Store} {cp purpose : String} {r : OtpRec}
    (h : findActive s cp purpose = some r) :
    r ∈ s ∧ r.phone = cp ∧ r.purpose = purpose ∧ r.isUsed = false := by
  have h1 := pickLatest_mem h
  rw [List.mem_filter] at h1
  exact ⟨h1.1, matchesActive_eq_true.mp h1.2⟩

theorem findActive_append_latest {s : Store} {cp purpose : String} {r : OtpRec}
    (hr : r.phone = cp ∧ r.purpose = purpose ∧ r.isUsed = false)
    (hmax : ∀ x ∈ s, x.phone = cp → x.purpose = purpose → x.isUsed = false →
      x.createdAt ≤ r.createdAt) :
    findActive (s ++ [r]) cp purpose = some r := by
  unfold findActive pickLatest
  rw [List.filter_append, List.foldl_append]
  have hfr : List.filter (matchesActive cp purpose) [r] = [r] := by
    simp [List.filter, matchesActive_eq_true.mpr hr]
  rw [hfr]
  rcases hacc : (List.filter (matchesActive cp purpose) s).foldl pickStep none with _ | b
  · simp [pickStep]
  · rcases foldl_pickStep_mem _ none b hacc with h1 | h1
    · exact Option.noConfusion h1
    · rw [List.mem_filter] at h1
      rcases matchesActive_eq_true.mp h1.2 with ⟨hp, hpu, hu⟩
      have hle := hmax b h1.1 hp hpu hu
      simp [pickStep, hle]

theorem sendOTP_rateLimited {env : Env} {s : Store} {phone purpose : String}
    (h : countRecent s (cleanDigits phone) env.now ≥ 3) :
    sendOTP env s phone purpose = (.error .RateLimitExceeded, s) := by
  simp [sendOTP, h]

theorem sendOTP_deliveryFailed {env : Env} {s : Store} {phone purpose : String}
    (h : ¬ countRecent s (cleanDigits phone) env.now ≥ 3)
    (hf : env.deliveryFails = true) :
    sendOTP env s phone purpose =
      (.error .DeliveryFailed, s ++ [newRecord env s phone purpose]) := by
  simp [sendOTP, h, hf]

theorem sendOTP_ok {env : Env} {s : Store} {phone purpose : String}
    (h : ¬ countRecent s (cleanDigits phone) env.now ≥ 3)
    (hf : env.deliveryFails = false) :
    sendOTP env s phone purpose =
      (.ok { phone := cleanDigits phone, expiresAt := env.now + 10 * 60 },
        s ++ [newRecord env s phone purpose]) := by
  simp [sendOTP, h, hf]

theorem verifyOTP_noActive {now : Nat} {s : Store} {phone otpCode purpose : String}
    (h : findActive s (cleanDigits phone) purpose = none) :
    verifyOTP now s phone otpCode purpose = (.error .NoActiveCode, s) := by
  simp [verifyOTP, h]

theorem verifyOTP_expired {now : Nat} {s : Store} {phone otpCode purpose : String}
    {r : OtpRec} (h : findActive s (cleanDigits phone) purpose = some r)
    (he : now > r.expiresAt) :
    verifyOTP now s phone otpCode purpose = (.error .Expired, markUsed s r.id) := by
  simp [verifyOTP, h, he]

theorem verifyOTP_exhausted {now : Nat} {s : Store} {phone otpCode purpose : String}
    {r : OtpRec} (h : findActive s (cleanDigits phone) purpose = some r)
    (he : ¬ now > r.expiresAt) (ha : r.attempts ≥ maxAttempts) :
    verifyOTP now s phone otpCode purpose =
      (.error .AttemptsExhausted, markUsed s r.id) := by
  simp [verifyOTP, h, he, ha]

theorem verifyOTP_mismatch {now : Nat} {s : Store} {phone otpCode purpose : String}
    {r : OtpRec} (h : findActive s (cleanDigits phone) purpose = some r)
    (he : ¬ now > r.expiresAt) (ha : ¬ r.attempts ≥ maxAttempts)
    (hc : r.code ≠ otpCode) :
    verifyOTP now s phone otpCode purpose =
      (.error .CodeMismatch, incAttempts s r.id) := by
  simp [verifyOTP, h, he, ha, hc]

theorem verifyOTP_success {now : Nat} {s : Store} {phone otpCode purpose : String}
    {r : OtpRec} (h : findActive s (cleanDigits phone) purpose = some r)
    (he : ¬ now > r.expiresAt) (ha : ¬ r.attempts ≥ maxAttempts)
    (hc : r.code = otpCode) :
    verifyOTP now s phone otpCode purpose = (.ok (), markUsed s r.id) := by
  simp [verifyOTP, h, he, ha, hc]

theorem resendOTP_tooSoon {env : Env} {s : Store} {phone purpose : String}
    (h : hasRecent s (cleanDigits phone) env.now = true) :
    resendOTP env s phone purpose = (.error .TooSoon, s) := by
  simp [resendOTP, h]

theorem resendOTP_go {env : Env} {s : Store} {phone purpose : String}
    (h : hasRecent s (cleanDigits phone) env.now = false) :
    resendOTP env s phone purpose =
      sendOTP env (invalidatePhone s (cleanDigits phone)) phone purpose := by
  simp [resendOTP, h]

theorem markUsed_self_mem {s : Store} {r : OtpRec} (h : r ∈ s) :
    { r with isUsed := true } ∈ markUsed s r.id := by
  have h1 := List.mem_map_of_mem
    (fun x => if x.id = r.id then { x with isUsed := true } else x) h
  simpa [markUsed] using h1

theorem incAttempts_self_mem {s : Store} {r : OtpRec} (h : r ∈ s) :
    { r with attempts := r.attempts + 1 } ∈ incAttempts s r.id := by
  have h1 := List.mem_map_of_mem
    (fun x => if x.id = r.id then { x with attempts := x.attempts + 1 } else x) h
  simpa [incAttempts] using h1

theorem mem_markUsed {s : Store} {i : Nat} {x : OtpRec} (h : x ∈ markUsed s i) :
    ∃ y ∈ s, (y.id = i ∧ x = { y with isUsed := true }) ∨ (y.id ≠ i ∧ x = y) := by
  simp only [markUsed] at h
  rcases List.mem_map.mp h with ⟨y, hy, hxy⟩
  refine ⟨y, hy, ?_⟩
  by_cases hid : y.id = i
  · exact Or.inl ⟨hid, by rw [← hxy, if_pos hid]⟩
  · exact Or.inr ⟨hid, by rw [← hxy, if_neg hid]⟩

theorem mem_incAttempts {s : Store} {i : Nat} {x : OtpRec} (h : x ∈ incAttempts s i) :
    ∃ y ∈ s, (y.id = i ∧ x = { y with attempts := y.attempts + 1 }) ∨ (y.id ≠ i ∧ x = y) := by
  simp only [incAttempts] at h
  rcases List.mem_map.mp h with ⟨y, hy, hxy⟩
  refine ⟨y, hy, ?_⟩
  by_cases hid : y.id = i
  · exact Or.inl ⟨hid, by rw [← hxy, if_pos hid]⟩
  · exact Or.inr ⟨hid, by rw [← hxy, if_neg hid]⟩

theorem mem_invalidatePhone {s : Store} {cp : String} {x : OtpRec}
    (h : x ∈ invalidatePhone s cp) (hp : x.phone = cp) : x.isUsed = true := by
  simp only [invalidatePhone] at h
  rcases List.mem_map.mp h with ⟨y, _, hxy⟩
  by_cases hcond : y.phone = cp ∧ y.isUsed = false
  · rw [← hxy, if_pos hcond]
  · rw [← hxy, if_neg hcond] at hp ⊢
    subst hxy
    rcases Bool.eq_false_or_eq_true y.isUsed with hu | hu
    · exact hu
    · exact absurd ⟨hp, hu⟩ hcond

theorem mem_invalidatePhone_inv {s : Store} {cp : String} {x : OtpRec}
    (h : x ∈ invalidatePhone s cp) :
    ∃ y ∈ s, (y.phone = cp ∧ y.isUsed = false ∧ x = { y with isUsed := true }) ∨ x = y := by
  simp only [invalidatePhone] at h
  rcases List.mem_map.mp h with ⟨y, hy, hxy⟩
  refine ⟨y, hy, ?_⟩
  by_cases hcond : y.phone = cp ∧ y.isUsed = false
  · exact Or.inl ⟨hcond.1, hcond.2, by rw [← hxy, if_pos hcond]⟩
  · exact Or.inr (by rw [← hxy, if_neg hcond])

theorem countRecent_invalidatePhone (s : Store) (cp cq : String) (now : Nat) :
    countRecent (invalidatePhone s cq) cp now = countRecent s cp now := by
  unfold countRecent invalidatePhone
  rw [List.filter_map]
  rw [List.length_map]
  congr 1
  apply List.filter_congr
  intro x _
  simp only [Function.comp]
  split
  · rfl
  · rfl

theorem freshId_cons (x : OtpRec) (xs : Store) :
    freshId (x :: xs) = max (x.id + 1) (freshId xs) := rfl

theorem freshId_lt {s : Store} : ∀ r ∈ s, r.id < freshId s := by
  induction s with
  | nil => simp
  | cons x xs ih =>
    intro r h
    rw [freshId_cons]
    rcases List.mem_cons.mp h with h1 | h1
    · subst h1
      exact lt_of_lt_of_le (Nat.lt_succ_self _) (le_max_left _ _)
    · exact lt_of_lt_of_le (ih r h1) (le_max_right _ _)

theorem map_id_markUsed (s : Store) (i : Nat) :
    (markUsed s i).map OtpRec.id = s.map OtpRec.id := by
  unfold markUsed
  rw [List.map_map]
  apply List.map_congr_left
  intro a _
  simp only [Function.comp]
  split
  · rfl
  · rfl

theorem map_id_incAttempts (s : Store) (i : Nat) :
    (incAttempts s i).map OtpRec.id = s.map OtpRec.id := by
  unfold incAttempts
  rw [List.map_map]
  apply List.map_congr_left
  intro a _
  simp only [Function.comp]
  split
  · rfl
  · rfl

theorem map_id_invalidatePhone (s : Store) (cp : String) :
    (invalidatePhone s cp).map OtpRec.id = s.map OtpRec.id := by
  unfold invalidatePhone
  rw [List.map_map]
  apply List.map_congr_left
  intro a _
  simp only [Function.comp]
  split
  · rfl
  · rfl

theorem WF_nil : WF [] := ⟨by simp, by simp⟩

theorem WF_markUsed {s : Store} (h : WF s) (i : Nat) : WF (markUsed s i) := by
  constructor
  · intro x hx
    rcases mem_markUsed hx with ⟨y, hy, hcase⟩
    rcases hcase with ⟨_, hxe⟩ | ⟨_, hxe⟩
    · rw [hxe]; exact h.1 y hy
    · rw [hxe]; exact h.1 y hy
  · rw [map_id_markUsed]; exact h.2

theorem WF_invalidatePhone {s : Store} (h : WF s) (cp : String) :
    WF (invalidatePhone s cp) := by
  constructor
  · intro x hx
    rcases mem_invalidatePhone_inv hx with ⟨y, hy, hcase⟩
    rcases hcase with ⟨_, _, hxe⟩ | hxe
    · rw [hxe]; exact h.1 y hy
    · rw [hxe]; exact h.1 y hy
  · rw [map_id_invalidatePhone]; exact h.2

theorem WF_incAttempts_found {s : Store} {r : OtpRec} (h : WF s)
    (hr : r ∈ s) (ha : r.attempts + 1 ≤ maxAttempts) : WF (incAttempts s r.id) := by
  constructor
  · intro x hx
    rcases mem_incAttempts hx with ⟨y, hy, hcase⟩
    rcases hcase with ⟨hid, hxe⟩ | ⟨_, hxe⟩
    · rw [hxe]
      have hyr : y = r := List.inj_on_of_nodup_map h.2 hy hr hid
      rw [hyr]
      exact ha
    · rw [hxe]; exact h.1 y hy
  · rw [map_id_incAttempts]; exact h.2

theorem freshId_not_mem (s : Store) : freshId s ∉ s.map OtpRec.id := by
  intro hmem
  rcases List.mem_map.mp hmem with ⟨r, hr, hid⟩
  exact Nat.lt_irrefl _ (hid ▸ freshId_lt r hr)

theorem sendOTP_snd {env : Env} {s : Store} {phone purpose : String}
    (h : ¬ countRecent s (cleanDigits phone) env.now ≥ 3) :
    (sendOTP env s phone purpose).2 = s ++ [newRecord env s phone purpose] := by
  by_cases hf : env.deliveryFails = true
  · rw [sendOTP_deliveryFailed h hf]
  · rw [sendOTP_ok h (by simpa using hf)]

theorem WF_sendOTP {env : Env} {s : Store} {phone purpose : String} (h : WF s) :
    WF (sendOTP env s phone purpose).2 := by
  by_cases hc : countRecent s (cleanDigits phone) env.now ≥ 3
  · rw [sendOTP_rateLimited hc]; exact h
  · rw [sendOTP_snd hc]
    constructor
    · intro x hx
      rcases List.mem_append.mp hx with h1 | h1
      · exact h.1 x h1
      · have hx1 : x = newRecord env s phone purpose := List.mem_singleton.mp h1
        subst hx1
        simp [newRecord, maxAttempts]
    · rw [List.map_append]
      have hdisj : ∀ x ∈ s, ¬ x.id = (newRecord env s phone purpose).id := by
        intro x hx hxe
        have hlt := freshId_lt x hx
        rw [hxe] at hlt
        exact Nat.lt_irrefl _ hlt
      simpa [List.nodup_append] using ⟨h.2, hdisj⟩

theorem WF_verifyOTP {now : Nat} {s : Store} {phone otpCode purpose : String}
    (h : WF s) : WF (verifyOTP now s phone otpCode purpose).2 := by
  rcases hf : findActive s (cleanDigits phone) purpose with _ | r
  · rw [verifyOTP_noActive hf]; exact h
  · by_cases he : now > r.expiresAt
    · rw [verifyOTP_expired hf he]; exact WF_markUsed h _
    · by_cases ha : r.attempts ≥ maxAttempts
      · rw [verifyOTP_exhausted hf he ha]; exact WF_markUsed h _
      · by_cases hc : r.code = otpCode
        · rw [verifyOTP_success hf he ha hc]; exact WF_markUsed h _
        · rw [verifyOTP_mismatch hf he ha hc]
          refine WF_incAttempts_found h (findActive_mem hf).1 ?_
          simp only [maxAttempts] at ha ⊢
          omega

theorem WF_resendOTP {env : Env} {s : Store} {phone purpose : String}
    (h : WF s) : WF (resendOTP env s phone purpose).2 := by
  by_cases hr : hasRecent s (cleanDigits phone) env.now = true
  · rw [resendOTP_tooSoon hr]; exact h
  · rw [resendOTP_go (by simpa using hr)]
    exact WF_sendOTP (WF_invalidatePhone h _)

theorem WF_applyOp {s : Store} (h : WF s) (op : Op) : WF (applyOp s op) := by
  cases op with
  | issue env phone purpose => exact WF_sendOTP h
  | verify now phone code purpose => exact WF_verifyOTP h
  | resend env phone purpose => exact WF_resendOTP h

theorem WF_foldl (ops : List Op) : ∀ s : Store, WF s → WF (ops.foldl applyOp s) := by
  induction ops with
  | nil => intro s h; exact h
  | cons op rest ih => intro s h; exact ih _ (WF_applyOp h op)

theorem WF_runOps (ops : List Op) : WF (runOps ops) := WF_foldl ops [] WF_nil

/-- C8: in every store reachable from the empty table by sequential
issue / verify / resend calls, every row satisfies
0 ≤ attempts ≤ maxAttempts: rows are created with attempts 0, and verifyOTP
increments attempts only after its attempts < maxAttempts check passed. -/
theorem claim8_attempts_invariant (ops : List Op) (r : OtpRec)
    (hr : r ∈ runOps ops) : 0 ≤ r.attempts ∧ r.attempts ≤ maxAttempts :=
  ⟨Nat.zero_le _, (WF_runOps ops).1 r hr⟩

theorem claim8_attempts_invariant_witness :
    ((⟨0, "9876543210", "100000", "login", 1000, 1600, 0, false⟩ : OtpRec) ∈
      runOps [Op.issue ⟨1000, 0, false⟩ "9876543210" "login"]) ∧
    (0 ≤ (⟨0, "9876543210", "100000", "login", 1000, 1600, 0, false⟩ : OtpRec).attempts ∧
      (⟨0, "9876543210", "100000", "login", 1000, 1600, 0, false⟩ : OtpRec).attempts ≤
        maxAttempts) :=
  ⟨by decide,
    claim8_attempts_invariant [Op.issue ⟨1000, 0, false⟩ "9876543210" "login"]
      ⟨0, "9876543210", "100000", "login", 1000, 1600, 0, false⟩ (by decide)⟩

/-- C3: if the row verify selects for (phone, purpose) is expired — now is
strictly past its expires_at — verify fails with Expired regardless of the
supplied code, and as a side effect the row is marked used. -/
theorem claim3_expired_marks_used (now : Nat) (s : Store)
    (phone otpCode purpose : String) (r : OtpRec)
    (hfind : findActive s (cleanDigits phone) purpose = some r)
    (hexp : now > r.expiresAt) :
    verifyOTP now s phone otpCode purpose = (.error .Expired, markUsed s r.id) ∧
    { r with isUsed := true } ∈ markUsed s r.id :=
  ⟨verifyOTP_expired hfind hexp, markUsed_self_mem (findActive_mem hfind).1⟩

theorem claim3_expired_marks_used_witness :
    (findActive [rowA] (cleanDigits "9876543210") "login" = some rowA) ∧
    (2001 > rowA.expiresAt) ∧
    (verifyOTP 2001 [rowA] "9876543210" "999999" "login" =
        (.error .Expired, markUsed [rowA] rowA.id) ∧
      { rowA with isUsed := true } ∈ markUsed [rowA] rowA.id) :=
  ⟨by decide, by decide,
    claim3_expired_marks_used 2001 [rowA] "9876543210" "999999" "login" rowA
      (by decide) (by decide)⟩

/-- C2: a wrong code against the selected, unexpired row whose attempts are
below the ceiling increments attempts by one and leaves the row unused; once
attempts has reached the ceiling, the next verify — whatever the code, even
the right one — marks the row used and fails with AttemptsExhausted. -/
theorem claim2_attempt_counting (now : Nat) (s : Store)
    (phone otpCode purpose : String) (r : OtpRec)
    (hfind : findActive s (cleanDigits phone) purpose = some r)
    (hexp : ¬ now > r.expiresAt) :
    (¬ r.attempts ≥ maxAttempts → r.code ≠ otpCode →
      verifyOTP now s phone otpCode purpose =
        (.error .CodeMismatch, incAttempts s r.id) ∧
      { r with attempts := r.attempts + 1 } ∈ incAttempts s r.id ∧
      ({ r with attempts := r.attempts + 1 } : OtpRec).isUsed = false) ∧
    (r.attempts ≥ maxAttempts →
      verifyOTP now s phone otpCode purpose =
        (.error .AttemptsExhausted, markUsed s r.id) ∧
      { r with isUsed := true } ∈ markUsed s r.id) := by
  constructor
  · intro ha hc
    exact ⟨verifyOTP_mismatch hfind hexp ha hc,
      incAttempts_self_mem (findActive_mem hfind).1,
      (findActive_mem hfind).2.2.2⟩
  · intro ha
    exact ⟨verifyOTP_exhausted hfind hexp ha,
      markUsed_self_mem (findActive_mem hfind).1⟩

theorem claim2_attempt_counting_witness :
    (verifyOTP 1001 [rowA] "9876543210" "999999" "login" =
      (.error .CodeMismatch, incAttempts [rowA] rowA.id)) ∧
    (verifyOTP 1001 [rowB] "9876543210" "123456" "login" =
      (.error .AttemptsExhausted, markUsed [rowB] rowB.id)) :=
  ⟨((claim2_attempt_counting 1001 [rowA] "9876543210" "999999" "login" rowA
      (by decide) (by decide)).1 (by decide) (by decide)).1,
    ((claim2_attempt_counting 1001 [rowB] "9876543210" "123456" "login" rowB
      (by decide) (by decide)).2 (by decide)).1⟩

/-- C4: when at least three rows for the phone were created within the last
five minutes, sendOTP fails with RateLimitExceeded and leaves the store
unchanged — no new row is persisted; in particular a fourth issue for the
same phone inside the window fails. -/
theorem claim4_rate_limit (env : Env) (s : Store) (phone purpose : String)
    (h : countRecent s (cleanDigits phone) env.now ≥ 3) :
    sendOTP env s phone purpose = (.error .RateLimitExceeded, s) :=
  sendOTP_rateLimited h

theorem claim4_rate_limit_witness :
    (countRecent
        (sendOTP ⟨1020, 2, false⟩
          (sendOTP ⟨1010, 1, false⟩
            (sendOTP ⟨1000, 0, false⟩ [] "9876543210" "login").2
              "9876543210" "login").2
            "9876543210" "login").2
        (cleanDigits "9876543210") 1030 ≥ 3) ∧
    (sendOTP ⟨1030, 3, false⟩
        (sendOTP ⟨1020, 2, false⟩
          (sendOTP ⟨1010, 1, false⟩
            (sendOTP ⟨1000, 0, false⟩ [] "9876543210" "login").2
              "9876543210" "login").2
            "9876543210" "login").2
        "9876543210" "login" =
      (.error .RateLimitExceeded,
        (sendOTP ⟨1020, 2, false⟩
          (sendOTP ⟨1010, 1, false⟩
            (sendOTP ⟨1000, 0, false⟩ [] "9876543210" "login").2
              "9876543210" "login").2
            "9876543210" "login").2)) :=
  ⟨by decide,
    claim4_rate_limit ⟨1030, 3, false⟩ _ "9876543210" "login" (by decide)⟩

/-- C7: a successful issue generates the code 100000 + draw — a six-digit
number in [100000, 999999] for every draw below 900000 — and persists a row
with expires_at = now + 10 minutes, attempts = 0, is_used = false, while the
attempts ceiling enforced at verification is 3. -/
theorem claim7_issue_record (env : Env) (s : Store) (phone purpose : String)
    (hdraw : env.draw < 900000)
    (hrate : ¬ countRecent s (cleanDigits phone) env.now ≥ 3)
    (hdeliv : env.deliveryFails = false) :
    sendOTP env s phone purpose =
      (.ok { phone := cleanDigits phone, expiresAt := env.now + 10 * 60 },
        s ++ [newRecord env s phone purpose]) ∧
    generateOTP env.draw = toString (100000 + env.draw) ∧
    100000 ≤ 100000 + env.draw ∧ 100000 + env.draw ≤ 999999 ∧
    (newRecord env s phone purpose).code = generateOTP env.draw ∧
    (newRecord env s phone purpose).createdAt = env.now ∧
    (newRecord env s phone purpose).expiresAt = env.now + 10 * 60 ∧
    (newRecord env s phone purpose).attempts = 0 ∧
    (newRecord env s phone purpose).isUsed = false ∧
    maxAttempts = 3 :=
  ⟨sendOTP_ok hrate hdeliv, rfl, by omega, by omega, rfl, rfl, rfl, rfl, rfl, rfl⟩

theorem claim7_issue_record_witness :
    ((899999 : Nat) < 900000 ∧
      ¬ countRecent [] (cleanDigits "9876543210") 1000 ≥ 3 ∧
      (⟨1000, 899999, false⟩ : Env).deliveryFails = false) ∧
    (sendOTP ⟨1000, 899999, false⟩ [] "9876543210" "login" =
        (.ok { phone := cleanDigits "9876543210", expiresAt := 1000 + 10 * 60 },
          [] ++ [newRecord ⟨1000, 899999, false⟩ [] "9876543210" "login"]) ∧
      generateOTP 899999 = toString (100000 + 899999) ∧
      100000 ≤ 100000 + 899999 ∧ 100000 + 899999 ≤ 999999 ∧
      (newRecord ⟨1000, 899999, false⟩ [] "9876543210" "login").code = generateOTP 899999 ∧
      (newRecord ⟨1000, 899999, false⟩ [] "9876543210" "login").createdAt = 1000 ∧
      (newRecord ⟨1000, 899999, false⟩ [] "9876543210" "login").expiresAt = 1000 + 10 * 60 ∧
      (newRecord ⟨1000, 899999, false⟩ [] "9876543210" "login").attempts = 0 ∧
      (newRecord ⟨1000, 899999, false⟩ [] "9876543210" "login").isUsed = false ∧
      maxAttempts = 3) :=
  ⟨⟨by decide, by decide, by decide⟩,
    claim7_issue_record ⟨1000, 899999, false⟩ [] "9876543210" "login"
      (by decide) (by decide) (by decide)⟩

/-- C6: when the SMS delivery step fails, sendOTP raises DeliveryFailed but
the row persisted before the send is kept: it is unused, and a later verify
with the generated code within the expiry window succeeds. -/
theorem claim6_delivery_failure (env : Env) (s : Store) (phone purpose : String)
    (now2 : Nat)
    (hrate : ¬ countRecent s (cleanDigits phone) env.now ≥ 3)
    (hfail : env.deliveryFails = true)
    (hmax : ∀ x ∈ s, x.phone = cleanDigits phone → x.purpose = purpose →
      x.isUsed = false → x.createdAt ≤ env.now)
    (hnow2 : ¬ now2 > env.now + 10 * 60) :
    sendOTP env s phone purpose =
      (.error .DeliveryFailed, s ++ [newRecord env s phone purpose]) ∧
    (newRecord env s phone purpose).isUsed = false ∧
    (verifyOTP now2 (s ++ [newRecord env s phone purpose]) phone
        (generateOTP env.draw) purpose).1 = .ok () := by
  refine ⟨sendOTP_deliveryFailed hrate hfail, rfl, ?_⟩
  have hmax2 : ∀ x ∈ s, x.phone = cleanDigits phone → x.purpose = purpose →
      x.isUsed = false → x.createdAt ≤ (newRecord env s phone purpose).createdAt :=
    hmax
  have hfind : findActive (s ++ [newRecord env s phone purpose])
      (cleanDigits phone) purpose = some (newRecord env s phone purpose) :=
    findActive_append_latest ⟨rfl, rfl, rfl⟩ hmax2
  have he : ¬ now2 > (newRecord env s phone purpose).expiresAt := hnow2
  have ha : ¬ (newRecord env s phone purpose).attempts ≥ maxAttempts := by
    show ¬ (0 ≥ maxAttempts)
    decide
  have hc : (newRecord env s phone purpose).code = generateOTP env.draw := rfl
  rw [verifyOTP_success hfind he ha hc]

theorem claim6_delivery_failure_witness :
    (¬ countRecent [] (cleanDigits "9876543210") 1000 ≥ 3 ∧
      (⟨1000, 42, true⟩ : Env).deliveryFails = true ∧
      ¬ 1100 > 1000 + 10 * 60) ∧
    (sendOTP ⟨1000, 42, true⟩ [] "9876543210" "login" =
        (.error .DeliveryFailed,
          [] ++ [newRecord ⟨1000, 42, true⟩ [] "9876543210" "login"]) ∧
      (newRecord ⟨1000, 42, true⟩ [] "9876543210" "login").isUsed = false ∧
      (verifyOTP 1100 ([] ++ [newRecord ⟨1000, 42, true⟩ [] "9876543210" "login"])
          "9876543210" (generateOTP 42) "login").1 = .ok ()) :=
  ⟨⟨by decide, by decide, by decide⟩,
    claim6_delivery_failure ⟨1000, 42, true⟩ [] "9876543210" "login" 1100
      (by decide) (by decide) (by decide) (by decide)⟩

/-- C1 counterexample: with an older unused, unexpired row for the same
(phone, purpose) holding a different code, the second verify with the issued
code selects that older row and fails with CodeMismatch — an error outside
the set NoActiveCode, Expired, AttemptsExhausted stated by the claim. -/
theorem claim1_counterexample :
    (sendOTP ⟨1050, 123456, false⟩ [rowOld] "9876543210" "login").1 =
      .ok ⟨"9876543210", 1650⟩ ∧
    (verifyOTP 1060 (sendOTP ⟨1050, 123456, false⟩ [rowOld] "9876543210" "login").2
        "9876543210" "223456" "login").1 = .ok () ∧
    (verifyOTP 1070
        (verifyOTP 1060 (sendOTP ⟨1050, 123456, false⟩ [rowOld] "9876543210" "login").2
          "9876543210" "223456" "login").2
        "9876543210" "223456" "login").1 = .error .CodeMismatch ∧
    OtpError.CodeMismatch ≠ OtpError.NoActiveCode ∧
    OtpError.CodeMismatch ≠ OtpError.Expired ∧
    OtpError.CodeMismatch ≠ OtpError.AttemptsExhausted := by
  decide

/-- C1 (amended): issue followed immediately by verify with the issued code
succeeds and marks the new row used; provided no other unused row for the
pair carries the same code, any later verify with that code fails — with
NoActiveCode, or with Expired, AttemptsExhausted or CodeMismatch when an
older unused row is selected — so the issued row is accepted at most once. -/
theorem claim1_single_use (env : Env) (s : Store) (phone purpose : String)
    (now2 : Nat)
    (hrate : ¬ countRecent s (cleanDigits phone) env.now ≥ 3)
    (hdeliv : env.deliveryFails = false)
    (hmax : ∀ x ∈ s, x.phone = cleanDigits phone → x.purpose = purpose →
      x.isUsed = false → x.createdAt ≤ env.now)
    (hcode : ∀ x ∈ s, x.phone = cleanDigits phone → x.purpose = purpose →
      x.isUsed = false → x.code ≠ generateOTP env.draw) :
    (verifyOTP env.now (sendOTP env s phone purpose).2 phone
        (generateOTP env.draw) purpose).1 = .ok () ∧
    { newRecord env s phone purpose with isUsed := true } ∈
      (verifyOTP env.now (sendOTP env s phone purpose).2 phone
        (generateOTP env.draw) purpose).2 ∧
    ∃ e, (verifyOTP now2
        (verifyOTP env.now (sendOTP env s phone purpose).2 phone
          (generateOTP env.draw) purpose).2
        phone (generateOTP env.draw) purpose).1 = .error e ∧
      (e = OtpError.NoActiveCode ∨ e = OtpError.Expired ∨
        e = OtpError.AttemptsExhausted ∨ e = OtpError.CodeMismatch) := by
  have hs2 : (sendOTP env s phone purpose).2 = s ++ [newRecord env s phone purpose] :=
    sendOTP_snd hrate
  have hmax2 : ∀ x ∈ s, x.phone = cleanDigits phone → x.purpose = purpose →
      x.isUsed = false → x.createdAt ≤ (newRecord env s phone purpose).createdAt := hmax
  have hfind : findActive (s ++ [newRecord env s phone purpose])
      (cleanDigits phone) purpose = some (newRecord env s phone purpose) :=
    findActive_append_latest ⟨rfl, rfl, rfl⟩ hmax2
  have he : ¬ env.now > (newRecord env s phone purpose).expiresAt := by
    show ¬ env.now > env.now + 10 * 60
    omega
  have ha : ¬ (newRecord env s phone purpose).attempts ≥ maxAttempts := by
    show ¬ (0 ≥ maxAttempts)
    decide
  have hc : (newRecord env s phone purpose).code = generateOTP env.draw := rfl
  have hver1 : verifyOTP env.now (s ++ [newRecord env s phone purpose]) phone
      (generateOTP env.draw) purpose =
      (.ok (), markUsed (s ++ [newRecord env s phone purpose])
        (newRecord env s phone purpose).id) :=
    verifyOTP_success hfind he ha hc
  rw [hs2, hver1]
  refine ⟨rfl, markUsed_self_mem (List.mem_append.mpr (Or.inr (by simp))), ?_⟩
  rcases hfa : findActive (markUsed (s ++ [newRecord env s phone purpose])
      (newRecord env s phone purpose).id) (cleanDigits phone) purpose with _ | r2
  · exact ⟨.NoActiveCode, by rw [verifyOTP_noActive hfa], Or.inl rfl⟩
  · rcases findActive_mem hfa with ⟨hr2mem, hr2p, hr2pu, hr2u⟩
    have hr2code : r2.code ≠ generateOTP env.draw := by
      rcases mem_markUsed hr2mem with ⟨y, hy, hcase⟩
      rcases hcase with ⟨hid, hxe⟩ | ⟨hid, hxe⟩
      · rw [hxe] at hr2u
        exact absurd hr2u (by simp)
      · rcases List.mem_append.mp hy with hys | hyn
        · rw [hxe]
          refine hcode y hys ?_ ?_ ?_
          · rw [← hxe]; exact hr2p
          · rw [← hxe]; exact hr2pu
          · rw [← hxe]; exact hr2u
        · have hyeq : y = newRecord env s phone purpose := List.mem_singleton.mp hyn
          rw [hyeq] at hid
          exact absurd rfl hid
    by_cases he2 : now2 > r2.expiresAt
    · exact ⟨.Expired, by rw [verifyOTP_expired hfa he2], Or.inr (Or.inl rfl)⟩
    · by_cases ha2 : r2.attempts ≥ maxAttempts
      · exact ⟨.AttemptsExhausted, by rw [verifyOTP_exhausted hfa he2 ha2],
          Or.inr (Or.inr (Or.inl rfl))⟩
      · exact ⟨.CodeMismatch, by rw [verifyOTP_mismatch hfa he2 ha2 hr2code],
          Or.inr (Or.inr (Or.inr rfl))⟩

theorem claim1_single_use_witness :
    (¬ countRecent [] (cleanDigits "9876543210") 1000 ≥ 3) ∧
    ((verifyOTP 1000 (sendOTP ⟨1000, 0, false⟩ [] "9876543210" "login").2 "9876543210"
        (generateOTP 0) "login").1 = .ok () ∧
      { newRecord ⟨1000, 0, false⟩ [] "9876543210" "login" with isUsed := true } ∈
        (verifyOTP 1000 (sendOTP ⟨1000, 0, false⟩ [] "9876543210" "login").2 "9876543210"
          (generateOTP 0) "login").2 ∧
      ∃ e, (verifyOTP 1001
          (verifyOTP 1000 (sendOTP ⟨1000, 0, false⟩ [] "9876543210" "login").2 "9876543210"
            (generateOTP 0) "login").2
          "9876543210" (generateOTP 0) "login").1 = .error e ∧
        (e = OtpError.NoActiveCode ∨ e = OtpError.Expired ∨
          e = OtpError.AttemptsExhausted ∨ e = OtpError.CodeMismatch)) :=
  ⟨by decide,
    claim1_single_use ⟨1000, 0, false⟩ [] "9876543210" "login" 1001
      (by decide) (by decide) (by decide) (by decide)⟩

/-- C5 counterexample: a row for the same phone but a different purpose,
created 30 seconds ago, makes resend fail with TooSoon although no row for
(phone, requested purpose) lies within the 60-second window — the guard
ignores purpose. -/
theorem claim5_counterexample :
    (resendOTP ⟨1030, 0, false⟩ [rowC] "9876543210" "registration").1 =
      .error .TooSoon ∧
    (∀ x ∈ [rowC], ¬ (x.phone = "9876543210" ∧ x.purpose = "registration" ∧
      x.createdAt > 1030 - 60)) := by
  decide

/-- C5 (amended): resend fails with TooSoon exactly when some row for the
phone — any purpose, not only the requested one — was created within the
last 60 seconds; otherwise it marks every unused row for the phone — again
any purpose — used and performs issue, and a later verify with the old code
is matched against the newly issued row, failing with CodeMismatch when the
codes differ (not with NoActiveCode). -/
theorem claim5_resend (env : Env) (s : Store) (phone purpose oldCode : String)
    (now2 : Nat) :
    (hasRecent s (cleanDigits phone) env.now = true →
      resendOTP env s phone purpose = (.error .TooSoon, s)) ∧
    (hasRecent s (cleanDigits phone) env.now = false →
      resendOTP env s phone purpose =
        sendOTP env (invalidatePhone s (cleanDigits phone)) phone purpose ∧
      (∀ x ∈ invalidatePhone s (cleanDigits phone),
        x.phone = cleanDigits phone → x.isUsed = true) ∧
      (¬ countRecent s (cleanDigits phone) env.now ≥ 3 →
        oldCode ≠ generateOTP env.draw →
        ¬ now2 > env.now + 10 * 60 →
        (verifyOTP now2 (resendOTP env s phone purpose).2 phone oldCode
          purpose).1 = .error .CodeMismatch)) := by
  constructor
  · intro h
    exact resendOTP_tooSoon h
  · intro h
    refine ⟨resendOTP_go h, fun x hx hp => mem_invalidatePhone hx hp, ?_⟩
    intro hrate hold hnow2
    have hrate2 : ¬ countRecent (invalidatePhone s (cleanDigits phone))
        (cleanDigits phone) env.now ≥ 3 := by
      rw [countRecent_invalidatePhone]
      exact hrate
    have hsnd : (resendOTP env s phone purpose).2 =
        invalidatePhone s (cleanDigits phone) ++
          [newRecord env (invalidatePhone s (cleanDigits phone)) phone purpose] := by
      rw [resendOTP_go h, sendOTP_snd hrate2]
    have hmax2 : ∀ x ∈ invalidatePhone s (cleanDigits phone),
        x.phone = cleanDigits phone → x.purpose = purpose → x.isUsed = false →
        x.createdAt ≤ (newRecord env (invalidatePhone s (cleanDigits phone))
          phone purpose).createdAt := by
      intro x hx hp _ hu
      have := mem_invalidatePhone hx hp
      rw [this] at hu
      exact absurd hu (by simp)
    have hfind : findActive
        (invalidatePhone s (cleanDigits phone) ++
          [newRecord env (invalidatePhone s (cleanDigits phone)) phone purpose])
        (cleanDigits phone) purpose =
        some (newRecord env (invalidatePhone s (cleanDigits phone)) phone purpose) :=
      findActive_append_latest ⟨rfl, rfl, rfl⟩ hmax2
    have he : ¬ now2 > (newRecord env (invalidatePhone s (cleanDigits phone))
        phone purpose).expiresAt := hnow2
    have ha : ¬ (newRecord env (invalidatePhone s (cleanDigits phone))
        phone purpose).attempts ≥ maxAttempts := by
      show ¬ (0 ≥ maxAttempts)
      decide
    have hcm : (newRecord env (invalidatePhone s (cleanDigits phone))
        phone purpose).code ≠ oldCode := by
      show generateOTP env.draw ≠ oldCode
      exact fun hx => hold hx.symm
    rw [hsnd, verifyOTP_mismatch hfind he ha hcm]

theorem claim5_resend_witness :
    (hasRecent [rowC] (cleanDigits "9876543210") 1030 = true ∧
      resendOTP ⟨1030, 0, false⟩ [rowC] "9876543210" "registration" =
        (.error .TooSoon, [rowC])) ∧
    (hasRecent [rowC] (cleanDigits "9876543210") 1100 = false ∧
      (resendOTP ⟨1100, 123456, false⟩ [rowC] "9876543210" "login" =
          sendOTP ⟨1100, 123456, false⟩ (invalidatePhone [rowC] (cleanDigits "9876543210"))
            "9876543210" "login" ∧
        (∀ x ∈ invalidatePhone [rowC] (cleanDigits "9876543210"),
          x.phone = cleanDigits "9876543210" → x.isUsed = true) ∧
        (¬ countRecent [rowC] (cleanDigits "9876543210") 1100 ≥ 3 →
          "111111" ≠ generateOTP 123456 →
          ¬ 1200 > 1100 + 10 * 60 →
          (verifyOTP 1200 (resendOTP ⟨1100, 123456, false⟩ [rowC] "9876543210" "login").2
            "9876543210" "111111" "login").1 = .error .CodeMismatch))) :=
  ⟨⟨by decide,
      (claim5_resend ⟨1030, 0, false⟩ [rowC] "9876543210" "registration" "111111" 1200).1
        (by decide)⟩,
    ⟨by decide,
      (claim5_resend ⟨1100, 123456, false⟩ [rowC] "9876543210" "login" "111111" 1200).2
        (by decide)⟩⟩

theorem pair_eq_snd {α β : Type} {a c : α} {b d : β} (h : (a, b) = (c, d)) : d = b :=
  (congrArg Prod.snd h).symm

theorem recEvolved_refl (a : OtpRec) : recEvolved a a :=
  ⟨rfl, rfl, rfl, rfl, rfl, rfl, Or.inl rfl, Or.inl rfl⟩

theorem forall₂_recEvolved_refl (s : Store) : List.Forall₂ recEvolved s s :=
  List.forall₂_same.mpr fun a _ => recEvolved_refl a

theorem forall₂_recEvolved_map {s : Store} {f : OtpRec → OtpRec}
    (hf : ∀ a, recEvolved a (f a)) : List.Forall₂ recEvolved s (s.map f) :=
  List.forall₂_map_right_iff.mpr (List.forall₂_same.mpr fun a _ => hf a)

theorem recEvolved_markUsed_fun (i : Nat) (a : OtpRec) :
    recEvolved a (if a.id = i then { a with isUsed := true } else a) := by
  by_cases h : a.id = i
  · rw [if_pos h]
    exact ⟨rfl, rfl, rfl, rfl, rfl, rfl, Or.inl rfl, Or.inr rfl⟩
  · rw [if_neg h]
    exact recEvolved_refl a

theorem recEvolved_incAttempts_fun (i : Nat) (a : OtpRec) :
    recEvolved a (if a.id = i then { a with attempts := a.attempts + 1 } else a) := by
  by_cases h : a.id = i
  · rw [if_pos h]
    exact ⟨rfl, rfl, rfl, rfl, rfl, rfl, Or.inr rfl, Or.inl rfl⟩
  · rw [if_neg h]
    exact recEvolved_refl a

theorem recEvolved_invalidate_fun (cp : String) (a : OtpRec) :
    recEvolved a
      (if a.phone = cp ∧ a.isUsed = false then { a with isUsed := true } else a) := by
  by_cases h : a.phone = cp ∧ a.isUsed = false
  · rw [if_pos h]
    exact ⟨rfl, rfl, rfl, rfl, rfl, rfl, Or.inl rfl, Or.inr rfl⟩
  · rw [if_neg h]
    exact recEvolved_refl a

theorem forall₂_markUsed (s : Store) (i : Nat) :
    List.Forall₂ recEvolved s (markUsed s i) :=
  forall₂_recEvolved_map (recEvolved_markUsed_fun i)

theorem forall₂_incAttempts (s : Store) (i : Nat) :
    List.Forall₂ recEvolved s (incAttempts s i) :=
  forall₂_recEvolved_map (recEvolved_incAttempts_fun i)

theorem forall₂_invalidatePhone (s : Store) (cp : String) :
    List.Forall₂ recEvolved s (invalidatePhone s cp) :=
  forall₂_recEvolved_map (recEvolved_invalidate_fun cp)

/-- C9 counterexample: a failing SMS delivery propagates DeliveryFailed yet
changes the store by appending a fresh row — neither leaving it untouched
nor merely marking rows used / incrementing attempts, the only state changes
the claim names. -/
theorem claim9_counterexample :
    (sendOTP ⟨1000, 0, true⟩ [] "9876543210" "login").1 = .error .DeliveryFailed ∧
    ¬ specFailureChange [] (sendOTP ⟨1000, 0, true⟩ [] "9876543210" "login").2 := by
  constructor
  · decide
  · intro h
    rcases h with h | h
    · exact absurd h (by decide)
    · exact absurd (List.forall₂_nil_left_iff.mp h) (by decide)

/-- C9 (amended): every failure path of issue, verify and resend propagates
its error to the caller and changes the store only by marking rows used,
incrementing attempts, or appending the single row inserted before a failing
SMS delivery; no error is swallowed and there is no fallback mode. -/
theorem claim9_failure_paths (env : Env) (now : Nat) (s : Store)
    (phone otpCode purpose : String) :
    (∀ e s2, sendOTP env s phone purpose = (.error e, s2) → failureChange s s2) ∧
    (∀ e s2, verifyOTP now s phone otpCode purpose = (.error e, s2) →
      failureChange s s2) ∧
    (∀ e s2, resendOTP env s phone purpose = (.error e, s2) → failureChange s s2) := by
  refine ⟨?_, ?_, ?_⟩
  · intro e s2 heq
    by_cases hc : countRecent s (cleanDigits phone) env.now ≥ 3
    · rw [sendOTP_rateLimited hc] at heq
      rw [pair_eq_snd heq]
      exact Or.inl (forall₂_recEvolved_refl s)
    · by_cases hf : env.deliveryFails = true
      · rw [sendOTP_deliveryFailed hc hf] at heq
        rw [pair_eq_snd heq]
        exact Or.inr ⟨s, newRecord env s phone purpose, forall₂_recEvolved_refl s, rfl⟩
      · rw [sendOTP_ok hc (by simpa using hf)] at heq
        exact absurd (congrArg Prod.fst heq) (by simp)
  · intro e s2 heq
    rcases hfa : findActive s (cleanDigits phone) purpose with _ | r
    · rw [verifyOTP_noActive hfa] at heq
      rw [pair_eq_snd heq]
      exact Or.inl (forall₂_recEvolved_refl s)
    · by_cases he : now > r.expiresAt
      · rw [verifyOTP_expired hfa he] at heq
        rw [pair_eq_snd heq]
        exact Or.inl (forall₂_markUsed s r.id)
      · by_cases ha : r.attempts ≥ maxAttempts
        · rw [verifyOTP_exhausted hfa he ha] at heq
          rw [pair_eq_snd heq]
          exact Or.inl (forall₂_markUsed s r.id)
        · by_cases hcm : r.code = otpCode
          · rw [verifyOTP_success hfa he ha hcm] at heq
            exact absurd (congrArg Prod.fst heq) (by simp)
          · rw [verifyOTP_mismatch hfa he ha hcm] at heq
            rw [pair_eq_snd heq]
            exact Or.inl (forall₂_incAttempts s r.id)
  · intro e s2 heq
    by_cases hr : hasRecent s (cleanDigits phone) env.now = true
    · rw [resendOTP_tooSoon hr] at heq
      rw [pair_eq_snd heq]
      exact Or.inl (forall₂_recEvolved_refl s)
    · rw [resendOTP_go (by simpa using hr)] at heq
      by_cases hc : countRecent (invalidatePhone s (cleanDigits phone))
          (cleanDigits phone) env.now ≥ 3
      · rw [sendOTP_rateLimited hc] at heq
        rw [pair_eq_snd heq]
        exact Or.inl (forall₂_invalidatePhone s (cleanDigits phone))
      · by_cases hf : env.deliveryFails = true
        · rw [sendOTP_deliveryFailed hc hf] at heq
          rw [pair_eq_snd heq]
          exact Or.inr ⟨invalidatePhone s (cleanDigits phone),
            newRecord env (invalidatePhone s (cleanDigits phone)) phone purpose,
            forall₂_invalidatePhone s (cleanDigits phone), rfl⟩
        · rw [sendOTP_ok hc (by simpa using hf)] at heq
          exact absurd (congrArg Prod.fst heq) (by simp)

theorem claim9_failure_paths_witness :
    failureChange [] (sendOTP ⟨1000, 0, true⟩ [] "9876543210" "login").2 :=
  (claim9_failure_paths ⟨1000, 0, true⟩ 1000 [] "9876543210" "123456" "login").1
    .DeliveryFailed (sendOTP ⟨1000, 0, true⟩ [] "9876543210" "login").2 (by decide)

/-- C10 counterexample: when the inner issue of resend fails with
DeliveryFailed the phone is not left without an active code — the row
inserted before the failed delivery is for the phone, unused and unexpired. -/
theorem claim10_counterexample :
    (resendOTP ⟨1120, 123456, true⟩ [rowC] "9876543210" "login").1 =
      .error .DeliveryFailed ∧
    ∃ x ∈ (resendOTP ⟨1120, 123456, true⟩ [rowC] "9876543210" "login").2,
      x.phone = "9876543210" ∧ x.isUsed = false ∧ ¬ 1120 > x.expiresAt := by
  decide

/-- C10 (amended): resend marks every unused row for the phone used before
attempting issue and never rolls that back: when the inner issue fails with
RateLimitExceeded — possible because the 60-second resend guard is weaker
than the 3-per-5-minutes issue limit — the call errors and the phone is left
with no unused row at all; when it fails with DeliveryFailed the old rows
stay invalidated and only the new, undelivered row remains unused. -/
theorem claim10_resend_invalidation (env : Env) (s : Store)
    (phone purpose : String)
    (hsoon : hasRecent s (cleanDigits phone) env.now = false) :
    (countRecent s (cleanDigits phone) env.now ≥ 3 →
      resendOTP env s phone purpose =
        (.error .RateLimitExceeded, invalidatePhone s (cleanDigits phone)) ∧
      ∀ x ∈ (resendOTP env s phone purpose).2,
        x.phone = cleanDigits phone → x.isUsed = true) ∧
    (¬ countRecent s (cleanDigits phone) env.now ≥ 3 → env.deliveryFails = true →
      resendOTP env s phone purpose =
        (.error .DeliveryFailed,
          invalidatePhone s (cleanDigits phone) ++
            [newRecord env (invalidatePhone s (cleanDigits phone)) phone purpose]) ∧
      (∀ x ∈ invalidatePhone s (cleanDigits phone),
        x.phone = cleanDigits phone → x.isUsed = true) ∧
      (newRecord env (invalidatePhone s (cleanDigits phone)) phone
        purpose).isUsed = false) := by
  constructor
  · intro hrate
    have hrate2 : countRecent (invalidatePhone s (cleanDigits phone))
        (cleanDigits phone) env.now ≥ 3 := by
      rw [countRecent_invalidatePhone]
      exact hrate
    have heq : resendOTP env s phone purpose =
        (.error .RateLimitExceeded, invalidatePhone s (cleanDigits phone)) := by
      rw [resendOTP_go hsoon, sendOTP_rateLimited hrate2]
    refine ⟨heq, ?_⟩
    rw [heq]
    intro x hx hp
    exact mem_invalidatePhone hx hp
  · intro hrate hfail
    have hrate2 : ¬ countRecent (invalidatePhone s (cleanDigits phone))
        (cleanDigits phone) env.now ≥ 3 := by
      rw [countRecent_invalidatePhone]
      exact hrate
    refine ⟨?_, fun x hx hp => mem_invalidatePhone hx hp, rfl⟩
    rw [resendOTP_go hsoon, sendOTP_deliveryFailed hrate2 hfail]

theorem claim10_resend_invalidation_witness :
    (hasRecent [row1, row2, row3] (cleanDigits "9876543210") 1100 = false ∧
      countRecent [row1, row2, row3] (cleanDigits "9876543210") 1100 ≥ 3 ∧
      (resendOTP ⟨1100, 0, false⟩ [row1, row2, row3] "9876543210" "login" =
          (.error .RateLimitExceeded,
            invalidatePhone [row1, row2, row3] (cleanDigits "9876543210")) ∧
        ∀ x ∈ (resendOTP ⟨1100, 0, false⟩ [row1, row2, row3] "9876543210" "login").2,
          x.phone = cleanDigits "9876543210" → x.isUsed = true)) ∧
    (hasRecent [rowC] (cleanDigits "9876543210") 1120 = false ∧
      ¬ countRecent [rowC] (cleanDigits "9876543210") 1120 ≥ 3 ∧
      (resendOTP ⟨1120, 123456, true⟩ [rowC] "9876543210" "login" =
          (.error .DeliveryFailed,
            invalidatePhone [rowC] (cleanDigits "9876543210") ++
              [newRecord ⟨1120, 123456, true⟩
                (invalidatePhone [rowC] (cleanDigits "9876543210"))
                "9876543210" "login"]) ∧
        (∀ x ∈ invalidatePhone [rowC] (cleanDigits "9876543210"),
          x.phone = cleanDigits "9876543210" → x.isUsed = true) ∧
        (newRecord ⟨1120, 123456, true⟩
          (invalidatePhone [rowC] (cleanDigits "9876543210"))
          "9876543210" "login").isUsed = false)) :=
  ⟨⟨by decide, by decide,
      (claim10_resend_invalidation ⟨1100, 0, false⟩ [row1, row2, row3]
        "9876543210" "login" (by decide)).1 (by decide)⟩,
    ⟨by decide, by decide,
      (claim10_resend_invalidation ⟨1120, 123456, true⟩ [rowC]
        "9876543210" "login" (by decide)).2 (by decide) (by decide)⟩⟩

end OtpService
